import Mathlib

/-!
Verification of the DahuaVTO protocol client (DahuaVTO.py).

Shallow embedding conventions:
- Python byte strings are `List Nat` (each element a byte value).
- JSON values parsed by `json.loads` are `JValue`; a JSON `null` and an
  absent dictionary key both become Python `None`, so the accessor
  `pyGetV` collapses both to `none`.
- Machine-independent Python integers are `Int`.
- Side effects (transport writes, timers, MQTT publishes) are recorded as
  an explicit `Effect` list returned next to the updated client state.
- Python exceptions caught by a surrounding `try`/`except` are modelled by
  returning the state as mutated so far, with no further effects.
-/

/-- A JSON value as produced by Python's `json.loads`.  Non-integer JSON
numbers become Python floats; floating point is outside the embedding, so
`jfloat` stores the raw lexeme uninterpreted (no claim touches floats). -/
inductive JValue where
  | jnull : JValue
  | jbool : Bool → JValue
  | jint : Int → JValue
  | jfloat : String → JValue
  | jstr : String → JValue
  | jarr : List JValue → JValue
  | jobj : List (String × JValue) → JValue
deriving Repr

/-- Association-list lookup for JSON objects (Python dicts built by
`json.loads` have unique keys, see `insertKey`). -/
def jlookup (k : String) : List (String × JValue) → Option JValue
  | [] => none
  | (k₁, v) :: rest => if k₁ = k then some v else jlookup k rest

/-- Python `value.get(key)` followed by the caller's `is not None` style
use: absent key and JSON `null` (Python `None`) both give `none`.  On a
non-dict value Python raises `AttributeError`; every call site catches it
inside a branch where the observable outcome coincides with `none`, so the
non-object case is folded into `none` here. -/
def pyGetV (v : JValue) (k : String) : Option JValue :=
  match v with
  | .jobj kvs =>
    match jlookup k kvs with
    | some .jnull => none
    | some w => some w
    | none => none
  | _ => none

/-- Python `x == n` for an integer literal `n`, where `x` came from a
parsed message field (`None == n` is `False`; `True`/`False` compare as
`1`/`0`).  Floats are not interpreted (no device message carries a float
id). -/
def pyEqInt (v : Option JValue) (n : Int) : Bool :=
  match v with
  | some (.jint m) => m == n
  | some (.jbool b) => (cond b 1 0 : Int) == n
  | _ => false

/-- Python `x == s` for a string literal `s` (`None == s` is `False`; only
a `str` can equal a `str`). -/
def pyEqStr (v : Option JValue) (s : String) : Bool :=
  match v with
  | some (.jstr t) => t == s
  | _ => false

/-- Python f-string rendering of a stored message field: `None` renders as
`"None"`, strings render as themselves, integers in decimal, booleans as
`True`/`False`.  Containers and floats never reach an f-string in any
claim; their rendering is a best-effort placeholder. -/
def pyFStr (v : Option JValue) : String :=
  match v with
  | none => "None"
  | some (.jstr s) => s
  | some (.jint n) => toString n
  | some (.jbool true) => "True"
  | some (.jbool false) => "False"
  | some (.jfloat lex) => lex
  | some .jnull => "None"
  | some (.jarr _) => "<list>"
  | some (.jobj _) => "<dict>"

/-- Python `d[k] = v` on a dict: updates the value in place if the key is
present (keeping its position), appends otherwise. -/
def dictSet (kvs : List (String × JValue)) (k : String) (v : JValue) :
    List (String × JValue) :=
  match kvs with
  | [] => [(k, v)]
  | (k₁, v₁) :: rest =>
    if k₁ = k then (k₁, v) :: rest else (k₁, v₁) :: dictSet rest k v

/-! ## Credential Hasher (DahuaVTO.py `_get_hashed_password`)

`hashlib.md5` is modelled by a full MD5 implementation over byte lists
(RFC 1321), with 32-bit words as `Nat` reduced modulo `4294967296`. -/

/-- The 64 MD5 sine-derived round constants. -/
def md5K : List Nat := [
  3614090360, 3905402710, 606105819, 3250441966, 4118548399, 1200080426, 2821735955, 4249261313,
  1770035416, 2336552879, 4294925233, 2304563134, 1804603682, 4254626195, 2792965006, 1236535329,
  4129170786, 3225465664, 643717713, 3921069994, 3593408605, 38016083, 3634488961, 3889429448,
  568446438, 3275163606, 4107603335, 1163531501, 2850285829, 4243563512, 1735328473, 2368359562,
  4294588738, 2272392833, 1839030562, 4259657740, 2763975236, 1272893353, 4139469664, 3200236656,
  681279174, 3936430074, 3572445317, 76029189, 3654602809, 3873151461, 530742520, 3299628645,
  4096336452, 1126891415, 2878612391, 4237533241, 1700485571, 2399980690, 4293915773, 2240044497,
  1873313359, 4264355552, 2734768916, 1309151649, 4149444226, 3174756917, 718787259, 3951481745]

/-- The per-round left-rotation amounts. -/
def md5S : List Nat := [
  7, 12, 17, 22, 7, 12, 17, 22, 7, 12, 17, 22, 7, 12, 17, 22,
  5, 9, 14, 20, 5, 9, 14, 20, 5, 9, 14, 20, 5, 9, 14, 20,
  4, 11, 16, 23, 4, 11, 16, 23, 4, 11, 16, 23, 4, 11, 16, 23,
  6, 10, 15, 21, 6, 10, 15, 21, 6, 10, 15, 21, 6, 10, 15, 21]

/-- 32-bit left rotation (argument assumed `< 2^32`). -/
def md5Rotl (x s : Nat) : Nat := ((x <<< s) ||| (x >>> (32 - s))) % 4294967296

/-- MD5 nonlinear round function; bitwise NOT on 32 bits is XOR with
`2^32 - 1`. -/
def md5F (i b c d : Nat) : Nat :=
  if i < 16 then (b &&& c) ||| ((b ^^^ 4294967295) &&& d)
  else if i < 32 then (d &&& b) ||| ((d ^^^ 4294967295) &&& c)
  else if i < 48 then b ^^^ c ^^^ d
  else c ^^^ (b ||| (d ^^^ 4294967295))

/-- MD5 message-word index for round `i`. -/
def md5G (i : Nat) : Nat :=
  if i < 16 then i
  else if i < 32 then (5 * i + 1) % 16
  else if i < 48 then (3 * i + 5) % 16
  else (7 * i) % 16

/-- One MD5 round on the state `(a, b, c, d)`. -/
def md5Step (M : Nat → Nat) (st : Nat × Nat × Nat × Nat) (i : Nat) :
    Nat × Nat × Nat × Nat :=
  match st with
  | (a, b, c, d) =>
    let t := (a + md5F i b c d + md5K.getD i 0 + M (md5G i)) % 4294967296
    (d, (b + md5Rotl t (md5S.getD i 0)) % 4294967296, b, c)

/-- Little-endian 32-bit word of a 64-byte chunk at word index `g`. -/
def md5Words (chunk : List Nat) (g : Nat) : Nat :=
  chunk.getD (4 * g) 0 + 256 * chunk.getD (4 * g + 1) 0 +
    65536 * chunk.getD (4 * g + 2) 0 + 16777216 * chunk.getD (4 * g + 3) 0

/-- Process one 64-byte chunk, adding the round output onto the state. -/
def md5ProcessChunk (st : Nat × Nat × Nat × Nat) (chunk : List Nat) :
    Nat × Nat × Nat × Nat :=
  match st with
  | (a0, b0, c0, d0) =>
    match (List.range 64).foldl (md5Step (md5Words chunk)) (a0, b0, c0, d0) with
    | (a, b, c, d) =>
      ((a0 + a) % 4294967296, (b0 + b) % 4294967296,
       (c0 + c) % 4294967296, (d0 + d) % 4294967296)

/-- MD5 padding: `0x80`, zeros to 56 mod 64, then the 8-byte little-endian
bit length. -/
def md5Pad (msg : List Nat) : List Nat :=
  msg ++ 128 :: List.replicate ((119 - msg.length % 64) % 64) 0 ++
    (List.range 8).map (fun i => msg.length * 8 / 2 ^ (8 * i) % 256)

/-- Split a byte list into 64-byte chunks (fuelled for structural
recursion; every step consumes input, so `length + 1` fuel always
suffices). -/
def chunksOf64Fuel : Nat → List Nat → List (List Nat)
  | 0, _ => []
  | _, [] => []
  | fuel + 1, b :: rest => ((b :: rest).take 64) :: chunksOf64Fuel fuel ((b :: rest).drop 64)

/-- Split a byte list into 64-byte chunks. -/
def chunksOf64 (l : List Nat) : List (List Nat) :=
  chunksOf64Fuel (l.length + 1) l

/-- Serialize one 32-bit word to four little-endian bytes. -/
def md5LEBytes4 (w : Nat) : List Nat :=
  [w % 256, w / 256 % 256, w / 65536 % 256, w / 16777216 % 256]

/-- The 16-byte MD5 digest of a byte list. -/
def md5Bytes (msg : List Nat) : List Nat :=
  match (chunksOf64 (md5Pad msg)).foldl md5ProcessChunk
      (1732584193, 4023233417, 2562383102, 271733878) with
  | (a, b, c, d) => md5LEBytes4 a ++ md5LEBytes4 b ++ md5LEBytes4 c ++ md5LEBytes4 d

/-- Lowercase hex digit for a value `< 16`. -/
def hexCharLower (n : Nat) : Char :=
  if n < 10 then Char.ofNat (48 + n) else Char.ofNat (87 + n)

/-- Python `hexdigest()`: lowercase hex string of a byte list. -/
def bytesHexLower (bs : List Nat) : String :=
  String.mk (bs.foldr (fun b acc => hexCharLower (b / 16) :: hexCharLower (b % 16) :: acc) [])

/-- UTF-8 encoding of one character (Python `str.encode('utf-8')`). -/
def utf8Char (c : Char) : List Nat :=
  let n := c.toNat
  if n < 128 then [n]
  else if n < 2048 then [192 + n / 64, 128 + n % 64]
  else if n < 65536 then [224 + n / 4096, 128 + n / 64 % 64, 128 + n % 64]
  else [240 + n / 262144, 128 + n / 4096 % 64, 128 + n / 64 % 64, 128 + n % 64]

/-- UTF-8 encoding of a string. -/
def utf8Encode (s : String) : List Nat := (s.toList.map utf8Char).flatten

/-- Python `str.upper()` character-wise; it agrees with `Char.toUpper`
on the ASCII hex digits this code uppercases. -/
def pyUpper (s : String) : String := String.mk (s.toList.map Char.toUpper)

/-- DahuaVTO.py `_get_hashed_password(random, realm, username, password)`:
two-round MD5 digest, each round's hex uppercased. -/
def get_hashed_password (random realm username password : String) : String :=
  let password_str := username ++ ":" ++ realm ++ ":" ++ password
  let password_hash := pyUpper (bytesHexLower (md5Bytes (utf8Encode password_str)))
  let random_str := username ++ ":" ++ random ++ ":" ++ password_hash
  pyUpper (bytesHexLower (md5Bytes (utf8Encode random_str)))

/-- Follows the spec's words (§4.1): `h1 = upperHex(MD5("{username}:{realm}:{password}"))`,
`h2 = upperHex(MD5("{username}:{nonce}:{h1}"))`; returns `h2`. -/
def specCredentialHash (username realm nonce password : String) : String :=
  let h1 := pyUpper (bytesHexLower (md5Bytes (utf8Encode (username ++ ":" ++ realm ++ ":" ++ password))))
  pyUpper (bytesHexLower (md5Bytes (utf8Encode (username ++ ":" ++ nonce ++ ":" ++ h1))))

/-! ## Message Codec: model of Python `json.loads`

A strict RFC-8259 parser matching Python's `json` module: whitespace is
space/tab/newline/CR, object keys are built with dict semantics
(`dictSet`, last value wins, first position kept), numbers follow
Python's `NUMBER_RE` (maximal match, leftover characters surface to the
caller), and `NaN`/`Infinity`/`-Infinity` are accepted as float
constants.  Lone `\uXXXX` surrogates (representable in a Python `str`
but not as a Unicode scalar) are rejected; no device message contains
them.  Recursion is fuelled; `json_loads` supplies fuel exceeding the
input length, and every recursive call consumes input, so fuel never
runs out on any actual input. -/

/-- Skip JSON whitespace. -/
def skipWs : List Char → List Char
  | [] => []
  | c :: rest =>
    if c = ' ' ∨ c = '\t' ∨ c = '\n' ∨ c = '\r' then skipWs rest else c :: rest

/-- Hex digit value of a character. -/
def hexVal (c : Char) : Option Nat :=
  if '0' ≤ c ∧ c ≤ '9' then some (c.toNat - 48)
  else if 'a' ≤ c ∧ c ≤ 'f' then some (c.toNat - 87)
  else if 'A' ≤ c ∧ c ≤ 'F' then some (c.toNat - 55)
  else none

/-- Body of a JSON string after the opening quote; returns the decoded
string and the input after the closing quote. -/
def parseStringBody (acc : List Char) : List Char → Option (String × List Char)
  | [] => none
  | '"' :: rest => some (String.mk acc.reverse, rest)
  | '\\' :: 'u' :: h1 :: h2 :: h3 :: h4 :: rest =>
    match hexVal h1, hexVal h2, hexVal h3, hexVal h4 with
    | some a, some b, some c, some d =>
      let v := 4096 * a + 256 * b + 16 * c + d
      if v < 55296 ∨ 57344 ≤ v then parseStringBody (Char.ofNat v :: acc) rest
      else if v < 56320 then
        match rest with
        | '\\' :: 'u' :: g1 :: g2 :: g3 :: g4 :: rest2 =>
          match hexVal g1, hexVal g2, hexVal g3, hexVal g4 with
          | some a2, some b2, some c2, some d2 =>
            let w := 4096 * a2 + 256 * b2 + 16 * c2 + d2
            if 56320 ≤ w ∧ w < 57344 then
              parseStringBody (Char.ofNat (65536 + 1024 * (v - 55296) + (w - 56320)) :: acc) rest2
            else none
          | _, _, _, _ => none
        | _ => none
      else none
    | _, _, _, _ => none
  | '\\' :: e :: rest =>
    if e = '"' then parseStringBody ('"' :: acc) rest
    else if e = '\\' then parseStringBody ('\\' :: acc) rest
    else if e = '/' then parseStringBody ('/' :: acc) rest
    else if e = 'b' then parseStringBody (Char.ofNat 8 :: acc) rest
    else if e = 'f' then parseStringBody (Char.ofNat 12 :: acc) rest
    else if e = 'n' then parseStringBody ('\n' :: acc) rest
    else if e = 'r' then parseStringBody ('\r' :: acc) rest
    else if e = 't' then parseStringBody ('\t' :: acc) rest
    else none
  | c :: rest =>
    if c.toNat < 32 then none else parseStringBody (c :: acc) rest

/-- Longest digit run at the front. -/
def spanDigits (cs : List Char) : List Char × List Char :=
  cs.span (fun c => c.isDigit)

/-- Numeric value of a digit run. -/
def digitsVal (ds : List Char) : Nat :=
  ds.foldl (fun a c => 10 * a + (c.toNat - 48)) 0

/-- Fraction and exponent parts of a number literal, per Python's
`NUMBER_RE`: a `.` or `e` not followed by the digits it requires is not
consumed (the group simply does not match). -/
def finishNumber (sign : Bool) (intDigits : List Char) (rest : List Char) :
    Option (JValue × List Char) :=
  let fr : List Char × List Char :=
    match rest with
    | '.' :: r =>
      match spanDigits r with
      | (d :: ds, r2) => ('.' :: d :: ds, r2)
      | ([], _) => ([], rest)
    | _ => ([], rest)
  let rest1 := fr.2
  let ex : List Char × List Char :=
    match rest1 with
    | e :: r =>
      if e = 'e' ∨ e = 'E' then
        match r with
        | s :: r2 =>
          if s = '+' ∨ s = '-' then
            match spanDigits r2 with
            | (d :: ds, r3) => (e :: s :: d :: ds, r3)
            | ([], _) => ([], rest1)
          else
            match spanDigits r with
            | (d :: ds, r3) => (e :: d :: ds, r3)
            | ([], _) => ([], rest1)
        | [] => ([], rest1)
      else ([], rest1)
    | [] => ([], rest1)
  if fr.1 = [] ∧ ex.1 = [] then
    some (.jint (if sign then -(digitsVal intDigits : Int) else (digitsVal intDigits : Int)), rest)
  else
    some (.jfloat (String.mk ((cond sign ['-'] []) ++ intDigits ++ fr.1 ++ ex.1)), ex.2)

/-- A JSON number at the front of the input (Python's `NUMBER_RE`):
optional `-`, then `0` or a nonzero-led digit run, then optional
fraction/exponent. -/
def parseNumber (cs : List Char) : Option (JValue × List Char) :=
  let sc : Bool × List Char := match cs with | '-' :: r => (true, r) | _ => (false, cs)
  match sc.2 with
  | c :: r =>
    if c = '0' then finishNumber sc.1 ['0'] r
    else if c.isDigit then
      match spanDigits r with
      | (ds, r2) => finishNumber sc.1 (c :: ds) r2
    else none
  | [] => none

mutual

/-- A JSON value at the (whitespace-skipped) front of the input. -/
def parseValue : Nat → List Char → Option (JValue × List Char)
  | 0, _ => none
  | fuel + 1, cs =>
    match skipWs cs with
    | '\x7b' :: rest => parseObjBody fuel (skipWs rest)
    | '[' :: rest => parseArrBody fuel (skipWs rest)
    | '"' :: rest => (parseStringBody [] rest).map (fun p => (.jstr p.1, p.2))
    | 't' :: 'r' :: 'u' :: 'e' :: rest => some (.jbool true, rest)
    | 'f' :: 'a' :: 'l' :: 's' :: 'e' :: rest => some (.jbool false, rest)
    | 'n' :: 'u' :: 'l' :: 'l' :: rest => some (.jnull, rest)
    | 'N' :: 'a' :: 'N' :: rest => some (.jfloat "NaN", rest)
    | 'I' :: 'n' :: 'f' :: 'i' :: 'n' :: 'i' :: 't' :: 'y' :: rest =>
      some (.jfloat "Infinity", rest)
    | '-' :: 'I' :: 'n' :: 'f' :: 'i' :: 'n' :: 'i' :: 't' :: 'y' :: rest =>
      some (.jfloat "-Infinity", rest)
    | cs1 => parseNumber cs1

/-- Object body after `{` and whitespace. -/
def parseObjBody : Nat → List Char → Option (JValue × List Char)
  | 0, _ => none
  | fuel + 1, cs =>
    match cs with
    | '\x7d' :: rest => some (.jobj [], rest)
    | _ => parseMembers fuel cs []

/-- Members of a non-empty object, starting at a key. -/
def parseMembers : Nat → List Char → List (String × JValue) →
    Option (JValue × List Char)
  | 0, _, _ => none
  | fuel + 1, cs, acc =>
    match cs with
    | '"' :: rest =>
      match parseStringBody [] rest with
      | none => none
      | some (key, r1) =>
        match skipWs r1 with
        | ':' :: r2 =>
          match parseValue fuel (skipWs r2) with
          | none => none
          | some (v, r3) =>
            let acc2 := dictSet acc key v
            match skipWs r3 with
            | ',' :: r4 => parseMembers fuel (skipWs r4) acc2
            | '\x7d' :: r4 => some (.jobj acc2, r4)
            | _ => none
        | _ => none
    | _ => none

/-- Array body after `[` and whitespace. -/
def parseArrBody : Nat → List Char → Option (JValue × List Char)
  | 0, _ => none
  | fuel + 1, cs =>
    match cs with
    | ']' :: rest => some (.jarr [], rest)
    | _ => parseItems fuel cs []

/-- Items of a non-empty array, starting at a value. -/
def parseItems : Nat → List Char → List JValue → Option (JValue × List Char)
  | 0, _, _ => none
  | fuel + 1, cs, acc =>
    match parseValue fuel cs with
    | none => none
    | some (v, r1) =>
      match skipWs r1 with
      | ',' :: r2 => parseItems fuel (skipWs r2) (acc ++ [v])
      | ']' :: r2 => some (.jarr (acc ++ [v]), r2)
      | _ => none

end

/-- Python `json.loads` on a character list: parse one value, allowing
surrounding whitespace; anything else left over is an error
(`Extra data`). -/
def json_loadsL (cs : List Char) : Option JValue :=
  match parseValue (cs.length + 2) (skipWs cs) with
  | some (v, rest) => match skipWs rest with
    | [] => some v
    | _ => none
  | none => none

/-- Python `json.loads`. -/
def json_loads (s : String) : Option JValue := json_loadsL s.toList

/-! ## Message Codec decode (DahuaVTO.py `parse_response`)

The source applies `str(...)` to the raw `bytes` chunk, which yields the
printable Python repr — a leading `b`, a quote delimiter, escape
sequences for non-printable bytes — and then splits that TEXT on the
four-character sequence backslash-`x`-`0`-`0`.  The repr is modelled
byte-for-byte by `pyBytesRepr`. -/

/-- Python `repr` of one byte inside a `bytes` literal delimited by
`quote` (39 = single quote, 34 = double quote): backslash and the
delimiter are escaped, tab/newline/CR use their short escapes, printable
ASCII stands for itself, and everything else becomes `\xNN` (lowercase
hex). -/
def pyByteReprChar (quote b : Nat) : List Char :=
  if b = 92 then ['\\', '\\']
  else if b = quote then ['\\', Char.ofNat quote]
  else if b = 9 then ['\\', 't']
  else if b = 10 then ['\\', 'n']
  else if b = 13 then ['\\', 'r']
  else if 32 ≤ b ∧ b ≤ 126 then [Char.ofNat b]
  else ['\\', 'x', hexCharLower (b / 16 % 16), hexCharLower (b % 16)]

/-- Python `str(bytes)` as a character list: the `bytes` repr.  The
delimiter is a single quote unless the bytes contain one and contain no
double quote. -/
def pyBytesReprChars (bs : List Nat) : List Char :=
  let quote : Nat := if bs.contains 39 ∧ ¬ bs.contains 34 then 34 else 39
  'b' :: Char.ofNat quote :: ((bs.map (pyByteReprChar quote)).flatten ++ [Char.ofNat quote])

/-- Python `str(bytes)` as a string. -/
def pyBytesRepr (bs : List Nat) : String := String.mk (pyBytesReprChars bs)

/-- Python `text.split(sep)` for the fixed separator backslash-`x`-`0`-`0`
(the four characters of the source literal): leftmost-first,
non-overlapping, keeping empty segments. -/
def splitOnEsc : List Char → List (List Char)
  | [] => [[]]
  | '\\' :: 'x' :: '0' :: '0' :: rest => [] :: splitOnEsc rest
  | c :: rest =>
    match splitOnEsc rest with
    | seg :: segs => (c :: seg) :: segs
    | [] => [[c]]

/-- Python `s.rindex(chr(125))`: index of the last closing brace, `none`
when there is none (where the source raises `ValueError`). -/
def rindexBrace (cs : List Char) : Option Nat :=
  (cs.enum.filterMap (fun p => if p.2 = '\x7d' then some p.1 else none)).getLast?

/-- The `for response_part in response_parts` loop of `parse_response`:
a segment starting with an opening brace is cut at its last closing
brace and parsed; `rindex` or `json.loads` failing raises, which the
surrounding `except` turns into returning the result accumulated so far
— segments after a failing one are never examined. -/
def parseLoop : List (List Char) → Option JValue → Option JValue
  | [], result => result
  | p :: rest, result =>
    if p.head? = some '\x7b' then
      match rindexBrace p with
      | none => result
      | some i =>
        match json_loadsL (p.take (i + 1)) with
        | none => result
        | some v => parseLoop rest (some v)
    else parseLoop rest result

/-- DahuaVTO.py `parse_response`: split `str(response)` on the literal
four-character sequence backslash-`x`-`0`-`0` and scan the segments. -/
def parse_response (response : List Nat) : Option JValue :=
  parseLoop (splitOnEsc (pyBytesReprChars response)) none

/-- Split a byte list on NUL bytes (segments between 0x00 delimiters). -/
def splitOnNul : List Nat → List (List Nat)
  | [] => [[]]
  | b :: rest =>
    match splitOnNul rest with
    | seg :: segs => if b = 0 then [] :: seg :: segs else (b :: seg) :: segs
    | [] => if b = 0 then [[], []] else [[b]]

/-- One byte per character, for rendering a NUL-free ASCII segment as
text. -/
def bytesToChars (bs : List Nat) : List Char :=
  bs.map Char.ofNat

/-- Follows the spec's words (§4.2): split the RAW chunk into
NUL-delimited textual segments and scan them with the same per-segment
logic (segment starts with an opening brace, cut at the LAST closing
brace, parse as JSON, surface only the last success).  Used to compare
the spec's description of the decoder with `parse_response`. -/
def specNulDecode (bs : List Nat) : Option JValue :=
  parseLoop ((splitOnNul bs).map bytesToChars) none

/-- Byte values of an ASCII string (test-input helper). -/
def asciiBytes (s : String) : List Nat :=
  s.toList.map Char.toNat

/-! ## Event serialization (Python `json.dumps(message, indent=4)`) -/

/-- Four lowercase hex digits. -/
def hex4 (n : Nat) : List Char :=
  [hexCharLower (n / 4096 % 16), hexCharLower (n / 256 % 16),
   hexCharLower (n / 16 % 16), hexCharLower (n % 16)]

/-- One character in a dumped JSON string (`ensure_ascii` default):
short escapes, `\uXXXX` for other control and all non-ASCII characters,
surrogate pairs for astral characters. -/
def jsonEscapeChar (c : Char) : List Char :=
  if c = '"' then ['\\', '"']
  else if c = '\\' then ['\\', '\\']
  else if c = '\n' then ['\\', 'n']
  else if c = '\r' then ['\\', 'r']
  else if c = '\t' then ['\\', 't']
  else if c.toNat = 8 then ['\\', 'b']
  else if c.toNat = 12 then ['\\', 'f']
  else if c.toNat < 32 then '\\' :: 'u' :: hex4 c.toNat
  else if c.toNat < 127 then [c]
  else if c.toNat < 65536 then '\\' :: 'u' :: hex4 c.toNat
  else
    let v := c.toNat - 65536
    '\\' :: 'u' :: hex4 (55296 + v / 1024) ++ '\\' :: 'u' :: hex4 (56320 + v % 1024)

/-- A dumped JSON string with quotes. -/
def jsonDumpsStr (s : String) : String :=
  "\"" ++ String.mk (s.toList.map jsonEscapeChar).flatten ++ "\""

/-- `4 * lvl` spaces. -/
def indentStr (lvl : Nat) : String :=
  String.mk (List.replicate (4 * lvl) ' ')

mutual

/-- `json.dumps(v, indent=4)` at nesting level `lvl`; floats keep their
uninterpreted lexeme. -/
def jsonDumps4V : Nat → JValue → String
  | _, .jnull => "null"
  | _, .jbool true => "true"
  | _, .jbool false => "false"
  | _, .jint n => toString n
  | _, .jfloat lex => lex
  | _, .jstr s => jsonDumpsStr s
  | lvl, .jarr xs =>
    match xs with
    | [] => "[]"
    | _ => "[\n" ++ jsonDumps4Arr (lvl + 1) xs ++ "\n" ++ indentStr lvl ++ "]"
  | lvl, .jobj kvs =>
    match kvs with
    | [] => "\x7b\x7d"
    | _ => "\x7b\n" ++ jsonDumps4Obj (lvl + 1) kvs ++ "\n" ++ indentStr lvl ++ "\x7d"

/-- Array items, one per line, comma-separated. -/
def jsonDumps4Arr : Nat → List JValue → String
  | _, [] => ""
  | lvl, [x] => indentStr lvl ++ jsonDumps4V lvl x
  | lvl, x :: y :: rest =>
    indentStr lvl ++ jsonDumps4V lvl x ++ ",\n" ++ jsonDumps4Arr lvl (y :: rest)

/-- Object members, one per line, comma-separated, `": "` after keys. -/
def jsonDumps4Obj : Nat → List (String × JValue) → String
  | _, [] => ""
  | lvl, [(k, v)] => indentStr lvl ++ jsonDumpsStr k ++ ": " ++ jsonDumps4V lvl v
  | lvl, (k, v) :: p :: rest =>
    indentStr lvl ++ jsonDumpsStr k ++ ": " ++ jsonDumps4V lvl v ++ ",\n" ++
      jsonDumps4Obj lvl (p :: rest)

end

/-- Top-level `json.dumps(v, indent=4)`. -/
def json_dumps_indent4 (v : JValue) : String := jsonDumps4V 0 v

/-! ## Session State Machine (class DahuaVTOClient) -/

/-- Modelled from the spec: the repository's `Messages.py` (class
`MessageData`, imported by DahuaVTO.py) is not under src/.  Per spec §6
an outbound request's method/params take one of three shapes; only the
payload fields a claim inspects are kept: login carries
`userName`/`password` (password empty for the pre-login probe, the
digest afterwards), attach subscribes the event stream, keep-alive
carries the current interval as `timeout`. -/
inductive OutParams where
  | login (userName password : String)
  | attach
  | keepAlive (timeout : Int)

/-- Modelled from the spec: one outbound protocol unit as built by
`MessageData(request_id, sessionId)` — `id` (overwritten by `send`),
`session` as currently stored, and the method/params payload. -/
structure OutMessage where
  id : Int
  session : Option JValue
  params : OutParams

/-- An observable side effect of the client: a transport write, a
`threading.Timer(delay, keep_alive).start()`, or an MQTT publish. -/
inductive Effect where
  | wire : OutMessage → Effect
  | timer : Int → Effect
  | publish : String → String → Effect

/-- The mutable state of one `DahuaVTOClient` (the Session of §3).
`mqtt_topic_head` is the source's topic-prefix setting (renamed here),
`transportClosing` is what `self.transport.is_closing()` reports, and
`dahua_details` is the DeviceDetails mapping fetched once per
connection. -/
structure ClientState where
  request_id : Int
  sessionId : Option JValue
  realm : Option JValue
  random : Option JValue
  keep_alive_interval : Int
  username : String
  password : String
  mqtt_topic_head : String
  dahua_details : List (String × String)
  transportClosing : Bool

/-- `DahuaVTOClient.__init__`: counter 1, session 0, no realm/random,
zero interval, empty DeviceDetails; the transport of a fresh connection
is open. -/
def initState (username password topicHead : String) : ClientState :=
  { request_id := 1, sessionId := some (.jint 0), realm := none, random := none,
    keep_alive_interval := 0, username := username, password := password,
    mqtt_topic_head := topicHead, dahua_details := [], transportClosing := false }

/-- `DahuaVTOClient.send`: increment the counter, stamp it on the
message, and write unless the transport is closing (the counter
increments regardless). -/
def send (st : ClientState) (m : OutMessage) : ClientState × List Effect :=
  let st1 := { st with request_id := st.request_id + 1 }
  let m1 := { m with id := st1.request_id }
  if st1.transportClosing then (st1, []) else (st1, [Effect.wire m1])

/-- `DahuaVTOClient.pre_login`: write a passwordless login carrying the
CURRENT counter (no increment) and session. -/
def pre_login (st : ClientState) : ClientState × List Effect :=
  let m : OutMessage :=
    { id := st.request_id, session := st.sessionId, params := .login st.username "" }
  if st.transportClosing then (st, []) else (st, [Effect.wire m])

/-- `DahuaVTOClient.login`: hash the stored challenge fields (f-strings
render a missing value as `"None"`) and send the authenticated login. -/
def login (st : ClientState) : ClientState × List Effect :=
  let password := get_hashed_password (pyFStr st.random) (pyFStr st.realm)
    st.username st.password
  send st { id := st.request_id, session := st.sessionId,
            params := .login st.username password }

/-- `DahuaVTOClient.attach_event_manager`. -/
def attach_event_manager (st : ClientState) : ClientState × List Effect :=
  send st { id := st.request_id, session := st.sessionId, params := .attach }

/-- `DahuaVTOClient.keep_alive`: send a keep-alive, then unconditionally
start a fresh `Timer` rescheduling itself. -/
def keep_alive (st : ClientState) : ClientState × List Effect :=
  match send st { id := st.request_id, session := st.sessionId,
                  params := .keepAlive st.keep_alive_interval } with
  | (st1, effs) => (st1, effs ++ [Effect.timer st.keep_alive_interval])

/-- `DahuaVTOClient.handle_login`: on a present `keepAliveInterval`,
store `interval − 5`, start the first keep-alive `Timer` with that
delay, then send the attach request.  A Python `bool` subtracts as
`1`/`0`; a non-numeric value raises `TypeError` before any assignment
(no store, no timer, no attach), as does `params.get` on a missing or
non-dict `params`. -/
def handle_login (st : ClientState) (params : Option JValue) :
    ClientState × List Effect :=
  match params with
  | some p =>
    match pyGetV p "keepAliveInterval" with
    | some (.jint n) =>
      let st1 := { st with keep_alive_interval := n - 5 }
      match attach_event_manager st1 with
      | (st2, effs) => (st2, Effect.timer (n - 5) :: effs)
    | some (.jbool b) =>
      let n : Int := cond b 1 0
      let st1 := { st with keep_alive_interval := n - 5 }
      match attach_event_manager st1 with
      | (st2, effs) => (st2, Effect.timer (n - 5) :: effs)
    | _ => (st, [])
  | none => (st, [])

/-- `DahuaVTOClient.handle_login_error`: only the exact challenge
message acts; it stores `params.random`, `params.realm` and the
response's `session`, then logs in.  `params.get` on a missing or
non-dict `params` raises before the first store (nothing changes, no
login). -/
def handle_login_error (st : ClientState) (error message : JValue)
    (params : Option JValue) : ClientState × List Effect :=
  if pyEqStr (pyGetV error "message") "Component error: login challenge!" then
    match params with
    | some (.jobj kvs) =>
      let st1 := { st with random := pyGetV (.jobj kvs) "random",
                           realm := pyGetV (.jobj kvs) "realm",
                           sessionId := pyGetV message "session" }
      login st1
    | _ => (st, [])
  else (st, [])

/-- The allow-listed DeviceDetails keys (`DAHUA_ALLOWED_DETAILS`). -/
def DAHUA_ALLOWED_DETAILS : List String := ["deviceType", "serialNumber"]

/-- The `for k in self.dahua_details` merge: every allow-listed
DeviceDetails entry is written onto the event dict with `message[k] =`,
overwriting an existing value. -/
def enrichEvent (details : List (String × String))
    (kvs : List (String × JValue)) : List (String × JValue) :=
  details.foldl
    (fun acc kv =>
      if DAHUA_ALLOWED_DETAILS.contains kv.1 then dictSet acc kv.1 (.jstr kv.2) else acc)
    kvs

/-- The `for message in event_list` loop: read `Code`, merge the device
details, publish the pretty-printed event to
`{topic}/{Code}/Event`.  A non-dict element raises at `message.get`,
aborting the loop (earlier publishes stand). -/
def notifyLoop (st : ClientState) : List JValue → List Effect
  | [] => []
  | e :: rest =>
    match e with
    | .jobj kvs =>
      Effect.publish
          (st.mqtt_topic_head ++ "/" ++ pyFStr (pyGetV (.jobj kvs) "Code") ++ "/Event")
          (json_dumps_indent4 (.jobj (enrichEvent st.dahua_details kvs)))
        :: notifyLoop st rest
    | _ => []

/-- `DahuaVTOClient.handle_notify_event_stream`: iterate the
notification's `eventList`; anything that is not a list of events makes
the surrounding `except` swallow the error with no publishes. -/
def handle_notify_event_stream (st : ClientState) (params : Option JValue) :
    List Effect :=
  match params with
  | some p =>
    match pyGetV p "eventList" with
    | some (.jarr events) => notifyLoop st events
    | _ => []
  | none => []

/-- The dispatch of `DahuaVTOClient.data_received` after parsing: id 1
with an error goes to `handle_login_error`, id 2 to `handle_login`,
anything else is checked for the event-stream notification method. -/
def handle_message (st : ClientState) (message : JValue) :
    ClientState × List Effect :=
  let message_id := pyGetV message "id"
  let params := pyGetV message "params"
  if pyEqInt message_id 1 then
    match pyGetV message "error" with
    | some error => handle_login_error st error message params
    | none => (st, [])
  else if pyEqInt message_id 2 then
    handle_login st params
  else if pyEqStr (pyGetV message "method") "client.notifyEventStream" then
    (st, handle_notify_event_stream st params)
  else (st, [])

/-- `DahuaVTOClient.data_received` on a raw chunk: parse, then dispatch;
a failed parse leaves `message = None`, whose `.get` raises into the
handler's `except` (no change, no effects). -/
def data_received (st : ClientState) (data : List Nat) :
    ClientState × List Effect :=
  match parse_response data with
  | some message => handle_message st message
  | none => (st, [])

/-- A sequence of `send` calls (arbitrary payloads), accumulating
effects — the shape of every post-pre-login outbound path. -/
def runSends (st : ClientState) : List OutParams → ClientState × List Effect
  | [] => (st, [])
  | p :: ps =>
    match send st { id := st.request_id, session := st.sessionId, params := p } with
    | (st1, effs) =>
      match runSends st1 ps with
      | (st2, effs2) => (st2, effs ++ effs2)

/-- The request ids carried by the transport writes in an effect list. -/
def wireIds (effs : List Effect) : List Int :=
  effs.filterMap (fun e => match e with | .wire m => some m.id | _ => none)

/-- The `n` consecutive integers starting at `start`. -/
def consecFrom (start : Int) : Nat → List Int
  | 0 => []
  | n + 1 => start :: consecFrom (start + 1) n

/-! ## Connection Manager (DahuaVTOManager.initialize)

The `while True` loop is modelled as a step machine consuming one
externally determined outcome per connection attempt: the body either
runs the event loop until the transport closes and then sleeps 5
seconds, or the attempt raises and the `except` sleeps 30 seconds; the
body contains no `break` or `return`, so no step reaches `terminated`. -/

/-- How one iteration of the manager's loop ends. -/
inductive ConnOutcome where
  | establishedThenClosed
  | establishFailed

/-- Manager control state: about to connect, sleeping a backoff, or
exited (never reached). -/
inductive MgrState where
  | connecting
  | sleeping : Nat → MgrState
  | terminated

/-- One step of `DahuaVTOManager.initialize`: a connection that was
established and later closed sleeps 5 seconds; a failed establishment
sleeps 30; a sleep always loops back to connecting. -/
def mgrStep : MgrState → ConnOutcome → MgrState
  | .connecting, .establishedThenClosed => .sleeping 5
  | .connecting, .establishFailed => .sleeping 30
  | .sleeping _, _ => .connecting
  | .terminated, _ => .terminated

/-! ## Theorems -/

theorem md5Bytes_length (msg : List Nat) : (md5Bytes msg).length = 16 := by
  unfold md5Bytes
  rcases (chunksOf64 (md5Pad msg)).foldl md5ProcessChunk
    (1732584193, 4023233417, 2562383102, 271733878) with ⟨a, b, c, d⟩
  simp [md5LEBytes4]

theorem md5Bytes_lt (msg : List Nat) : ∀ b ∈ md5Bytes msg, b < 256 := by
  unfold md5Bytes
  rcases (chunksOf64 (md5Pad msg)).foldl md5ProcessChunk
    (1732584193, 4023233417, 2562383102, 271733878) with ⟨a, b, c, d⟩
  intro x hx
  simp only [md5LEBytes4, List.mem_append, List.mem_cons, List.not_mem_nil,
    or_false] at hx
  omega

theorem hexPairList_length (bs : List Nat) :
    (bs.foldr (fun b acc => hexCharLower (b / 16) :: hexCharLower (b % 16) :: acc) []).length
      = 2 * bs.length := by
  induction bs with
  | nil => rfl
  | cons b rest ih => simp [List.foldr, ih]; omega

theorem upperHexDigest_length (bs : List Nat) :
    (pyUpper (bytesHexLower bs)).length = 2 * bs.length := by
  show (List.map Char.toUpper _).length = 2 * bs.length
  rw [List.length_map]
  exact hexPairList_length bs

theorem hexCharLower_toUpper_mem (n : Nat) (h : n < 16) :
    ("0123456789ABCDEF".toList.contains (Char.toUpper (hexCharLower n))) = true := by
  interval_cases n <;> decide

theorem hexPairList_chars (bs : List Nat) (hb : ∀ b ∈ bs, b < 256) :
    ∀ c ∈ bs.foldr (fun b acc => hexCharLower (b / 16) :: hexCharLower (b % 16) :: acc) [],
      ("0123456789ABCDEF".toList.contains (Char.toUpper c)) = true := by
  induction bs with
  | nil => intro c hc; simp at hc
  | cons b rest ih =>
    intro c hc
    have hblt : b < 256 := hb b (List.mem_cons_self _ _)
    simp only [List.foldr, List.mem_cons] at hc
    rcases hc with rfl | rfl | h
    · exact hexCharLower_toUpper_mem _ (by omega)
    · exact hexCharLower_toUpper_mem _ (by omega)
    · exact ih (fun x hx => hb x (List.mem_cons_of_mem _ hx)) c h

theorem upperHexDigest_chars (bs : List Nat) (hb : ∀ b ∈ bs, b < 256) :
    ((pyUpper (bytesHexLower bs)).toList.all
      (fun c => "0123456789ABCDEF".toList.contains c)) = true := by
  show (List.map Char.toUpper
    (bs.foldr (fun b acc => hexCharLower (b / 16) :: hexCharLower (b % 16) :: acc) [])).all _ = true
  rw [List.all_eq_true]
  intro c hc
  rw [List.mem_map] at hc
  obtain ⟨c0, hc0, rfl⟩ := hc
  exact hexPairList_chars bs hb c0 hc0

set_option maxRecDepth 100000

/-- C2: for all strings username, realm, nonce (random), password,
`_get_hashed_password` returns `upperHex(MD5("{username}:{nonce}:{h1}"))`
with `h1 = upperHex(MD5("{username}:{realm}:{password}"))` — the
composition the spec's words describe (`specCredentialHash`) — and the
result is always a 32-character string of uppercase hexadecimal digits;
the function is a pure total Lean function (no side effects, no failure
modes).  The spec's pinned test vector for `admin`/`abc`/`123`/`secret`
is included as a closing conjunct. -/
theorem C2_credential_hasher (username realm nonce password : String) :
    get_hashed_password nonce realm username password
        = specCredentialHash username realm nonce password
      ∧ (get_hashed_password nonce realm username password).length = 32
      ∧ ((get_hashed_password nonce realm username password).toList.all
          (fun c => "0123456789ABCDEF".toList.contains c)) = true
      ∧ get_hashed_password "123" "abc" "admin" "secret"
        = "E817FB850DFB426FB006DD8A0A2FEA7A" := by
  refine ⟨rfl, ?_, ?_, by rfl⟩
  · show (pyUpper (bytesHexLower (md5Bytes _))).length = 32
    rw [upperHexDigest_length, md5Bytes_length]
  · exact upperHexDigest_chars _ (md5Bytes_lt _)

theorem mgrStep_ne_terminated (s : MgrState) (h : s ≠ MgrState.terminated)
    (o : ConnOutcome) : mgrStep s o ≠ MgrState.terminated := by
  cases s with
  | connecting => cases o <;> simp [mgrStep]
  | sleeping n => simp [mgrStep]
  | terminated => exact absurd rfl h

theorem mgr_foldl_ne_terminated (os : List ConnOutcome) :
    ∀ s, s ≠ MgrState.terminated →
      os.foldl mgrStep s ≠ MgrState.terminated := by
  induction os with
  | nil => intro s h; exact h
  | cons o rest ih =>
    intro s h
    exact ih (mgrStep s o) (mgrStep_ne_terminated s h o)

/-- C7: the manager's retry loop is unbounded — no sequence of
connection outcomes, of any length, can drive it from `connecting` to
`terminated` — and each iteration backs off 5 seconds after a
transport that was established and later closed, 30 seconds after a
failure during establishment itself. -/
theorem C7_connection_manager_backoff (os : List ConnOutcome) :
    os.foldl mgrStep MgrState.connecting ≠ MgrState.terminated
      ∧ mgrStep MgrState.connecting ConnOutcome.establishedThenClosed
          = MgrState.sleeping 5
      ∧ mgrStep MgrState.connecting ConnOutcome.establishFailed
          = MgrState.sleeping 30 := by
  refine ⟨mgr_foldl_ne_terminated os MgrState.connecting (by simp), rfl, rfl⟩

/-- C8: the claim (spec §5) requires a keep-alive task of a torn-down
connection to stop running — neither sending NOR rescheduling.  The code
violates it: when the timer fires with `transport.is_closing()` true,
`keep_alive` skips the write but still unconditionally starts a fresh
`Timer`, so the recurring task of every old connection keeps
rescheduling itself forever across reconnects (and the request counter
keeps incrementing). -/
theorem C8_keep_alive_task_leak (st : ClientState)
    (hclosed : st.transportClosing = true) :
    keep_alive st
      = ({ st with request_id := st.request_id + 1 },
         [Effect.timer st.keep_alive_interval]) := by
  simp [keep_alive, send, hclosed]

theorem C8_keep_alive_task_leak_witness :
    keep_alive { initState "admin" "pw" "Dahua" with transportClosing := true }
      = ({ initState "admin" "pw" "Dahua" with transportClosing := true, request_id := 2 },
         [Effect.timer 0]) :=
  C8_keep_alive_task_leak
    { initState "admin" "pw" "Dahua" with transportClosing := true } rfl

theorem runSends_ids (ps : List OutParams) :
    ∀ st : ClientState, st.transportClosing = false →
      wireIds (runSends st ps).2 = consecFrom (st.request_id + 1) ps.length
        ∧ (runSends st ps).1.request_id = st.request_id + ps.length := by
  induction ps with
  | nil => intro st h; simp [runSends, wireIds, consecFrom]
  | cons p rest ih =>
    intro st h
    have hstep : send st { id := st.request_id, session := st.sessionId, params := p }
        = ({ st with request_id := st.request_id + 1 },
           [Effect.wire { id := st.request_id + 1, session := st.sessionId, params := p }]) := by
      simp [send, h]
    obtain ⟨ih1, ih2⟩ := ih { st with request_id := st.request_id + 1 } h
    rcases hrs : runSends { st with request_id := st.request_id + 1 } rest with ⟨st2, effs2⟩
    rw [hrs] at ih1 ih2
    simp only [runSends, hstep, hrs]
    constructor
    · simp only [wireIds, List.filterMap_append, List.filterMap_cons] at ih1 ⊢
      rw [ih1]
      simp [consecFrom]
    · simp only [List.length_cons]
      simp only at ih2
      rw [ih2]
      push_cast
      ring

/-- C6: within one connection the counter starts at 1, the pre-login
probe goes out carrying id 1 without incrementing, and every subsequent
`send` increments the counter before stamping it, so the id sequence of
the probe followed by any number of further sends is exactly the
consecutive integers 1, 2, 3, …. -/
theorem C6_request_id_invariant (u pw t : String) (ps : List OutParams) :
    (initState u pw t).request_id = 1
      ∧ pre_login (initState u pw t)
          = (initState u pw t,
             [Effect.wire { id := 1, session := some (.jint 0), params := .login u "" }])
      ∧ 1 :: wireIds (runSends (initState u pw t) ps).2
          = consecFrom 1 (ps.length + 1) := by
  refine ⟨rfl, by simp [pre_login, initState], ?_⟩
  obtain ⟨h1, _⟩ := runSends_ids ps (initState u pw t) rfl
  rw [h1]
  show (1 : Int) :: consecFrom ((initState u pw t).request_id + 1) ps.length = _
  simp [initState, consecFrom]

/-- C4 (amended reading per the data model's `keepAliveInterval: integer
seconds`): for every id=2 response on a live transport whose params
carry an integer `keepAliveInterval = n`, the client stores `n − 5` as
its own interval, starts the first keep-alive `Timer` with exactly that
delay (25 for n = 30), and then sends the attach request; when
`keepAliveInterval` is absent — or `params` itself is — no timer is
started and no attach request is sent. -/
theorem C4_keep_alive_scheduling (st : ClientState) (m : JValue) (n : Int)
    (hopen : st.transportClosing = false)
    (hid : pyGetV m "id" = some (.jint 2)) :
    (∀ p, pyGetV m "params" = some p →
      (pyGetV p "keepAliveInterval" = some (.jint n) →
        handle_message st m
          = ({ st with keep_alive_interval := n - 5, request_id := st.request_id + 1 },
             [Effect.timer (n - 5),
              Effect.wire { id := st.request_id + 1, session := st.sessionId,
                            params := .attach }]))
      ∧ (pyGetV p "keepAliveInterval" = none → handle_message st m = (st, [])))
    ∧ (pyGetV m "params" = none → handle_message st m = (st, [])) := by
  refine ⟨fun p hp => ⟨fun hkai => ?_, fun hkai => ?_⟩, fun hp => ?_⟩
  · simp [handle_message, handle_login, attach_event_manager, send,
      hid, hp, hkai, hopen, pyEqInt]
  · simp [handle_message, handle_login, attach_event_manager, send,
      hid, hp, hkai, hopen, pyEqInt]
  · simp [handle_message, handle_login, attach_event_manager, send,
      hid, hp, hopen, pyEqInt]

theorem C4_keep_alive_scheduling_witness :
    handle_message (initState "admin" "pw" "Dahua")
        (JValue.jobj [("id", .jint 2), ("params", .jobj [("keepAliveInterval", .jint 30)])])
      = ({ initState "admin" "pw" "Dahua" with keep_alive_interval := 25, request_id := 2 },
         [Effect.timer 25,
          Effect.wire { id := 2, session := some (.jint 0), params := .attach }]) :=
  ((C4_keep_alive_scheduling (initState "admin" "pw" "Dahua")
      (JValue.jobj [("id", .jint 2), ("params", .jobj [("keepAliveInterval", .jint 30)])])
      30 rfl rfl).1
    (JValue.jobj [("keepAliveInterval", .jint 30)]) rfl).1 rfl

/-- C9 (counterexample): an id=2 response that carries an error other
than the login challenge — `error.message = "Oops"` — but whose params
still contain `keepAliveInterval` makes the state machine progress:
the interval is stored (0 becomes 25), a timer is started and an attach
request is sent (two effects), contradicting the claim that any such
error response causes no request and no mutation. -/
theorem C9_counterexample :
    pyGetV (JValue.jobj [("id", .jint 2), ("error", .jobj [("message", .jstr "Oops")]),
        ("params", .jobj [("keepAliveInterval", .jint 30)])]) "id" = some (.jint 2)
      ∧ pyGetV (JValue.jobj [("id", .jint 2), ("error", .jobj [("message", .jstr "Oops")]),
          ("params", .jobj [("keepAliveInterval", .jint 30)])]) "error"
        = some (.jobj [("message", .jstr "Oops")])
      ∧ pyEqStr (pyGetV (JValue.jobj [("message", .jstr "Oops")]) "message")
          "Component error: login challenge!" = false
      ∧ (handle_message (initState "admin" "pw" "Dahua")
          (JValue.jobj [("id", .jint 2), ("error", .jobj [("message", .jstr "Oops")]),
            ("params", .jobj [("keepAliveInterval", .jint 30)])])).2.length = 2
      ∧ (handle_message (initState "admin" "pw" "Dahua")
          (JValue.jobj [("id", .jint 2), ("error", .jobj [("message", .jstr "Oops")]),
            ("params", .jobj [("keepAliveInterval", .jint 30)])])).1.keep_alive_interval = 25
      ∧ (initState "admin" "pw" "Dahua").keep_alive_interval = 0
      ∧ (2 : Nat) ≠ 0 ∧ (25 : Int) ≠ 0 :=
  ⟨rfl, rfl, rfl, rfl, rfl, rfl, by decide, by decide⟩

/-- C9 (amended): on id=1, any error whose message is not the exact
challenge string causes no request and no session-state change; on
id=2 the error field is never inspected — progress depends solely on
`params.keepAliveInterval`, so an error response WITHOUT
`keepAliveInterval` (or without params) is logged only, with no request
and no mutation, while one that does carry it proceeds (see the
counterexample). -/
theorem C9_non_challenge_errors (st : ClientState) (m : JValue) :
    (∀ err, pyGetV m "id" = some (.jint 1) → pyGetV m "error" = some err →
      pyEqStr (pyGetV err "message") "Component error: login challenge!" = false →
      handle_message st m = (st, []))
    ∧ (pyGetV m "id" = some (.jint 2) →
      (∀ p, pyGetV m "params" = some p → pyGetV p "keepAliveInterval" = none →
        handle_message st m = (st, []))
      ∧ (pyGetV m "params" = none → handle_message st m = (st, []))) := by
  constructor
  · intro err hid herr hmsg
    simp [handle_message, handle_login_error, hid, herr, hmsg, pyEqInt]
  · intro hid
    constructor
    · intro p hp hkai
      simp [handle_message, handle_login, hid, hp, hkai, pyEqInt]
    · intro hp
      simp [handle_message, handle_login, hid, hp, pyEqInt]

theorem C9_non_challenge_errors_witness :
    handle_message (initState "admin" "pw" "Dahua")
        (JValue.jobj [("id", .jint 1), ("session", .jint 9),
          ("error", .jobj [("message", .jstr "Oops")])])
      = (initState "admin" "pw" "Dahua", []) :=
  (C9_non_challenge_errors (initState "admin" "pw" "Dahua")
      (JValue.jobj [("id", .jint 1), ("session", .jint 9),
        ("error", .jobj [("message", .jstr "Oops")])])).1
    (JValue.jobj [("message", .jstr "Oops")]) rfl rfl rfl

/-- C1 (counterexample): a response with id=1 whose `error.message` is
exactly the challenge string but which carries NO `params` field:
`params.get("random")` raises `AttributeError` before any assignment,
so nothing is stored and no login request is sent — the claim's
required store-and-send does not happen. -/
theorem C1_counterexample :
    pyGetV (JValue.jobj [("id", .jint 1), ("session", .jint 5),
        ("error", .jobj [("message", .jstr "Component error: login challenge!")])]) "id"
      = some (.jint 1)
      ∧ pyEqStr
          (pyGetV (JValue.jobj [("message", .jstr "Component error: login challenge!")])
            "message")
          "Component error: login challenge!" = true
      ∧ handle_message (initState "admin" "pw" "Dahua")
          (JValue.jobj [("id", .jint 1), ("session", .jint 5),
            ("error", .jobj [("message", .jstr "Component error: login challenge!")])])
        = (initState "admin" "pw" "Dahua", []) :=
  ⟨rfl, rfl, rfl⟩

/-- C1 (amended): for every id=1 response on a live transport whose
`error.message` equals exactly the challenge string AND whose `params`
field is a JSON object, the client stores `params.random`,
`params.realm` and the message's `session` into the Session and sends a
second `global.login` whose password is the Credential Hasher applied
to the stored random/realm (as f-strings) and the configured
username/password, with the auto-incremented id and stored session; if
`error` is absent, or its `message` differs, nothing is sent and no
session field changes. -/
theorem C1_login_challenge (st : ClientState) (m : JValue)
    (kvs : List (String × JValue))
    (hopen : st.transportClosing = false)
    (hid : pyGetV m "id" = some (.jint 1)) :
    (∀ err, pyGetV m "error" = some err →
      pyEqStr (pyGetV err "message") "Component error: login challenge!" = true →
      pyGetV m "params" = some (.jobj kvs) →
      handle_message st m
        = ({ st with random := pyGetV (.jobj kvs) "random",
                     realm := pyGetV (.jobj kvs) "realm",
                     sessionId := pyGetV m "session",
                     request_id := st.request_id + 1 },
           [Effect.wire
             { id := st.request_id + 1,
               session := pyGetV m "session",
               params := .login st.username
                 (get_hashed_password
                   (pyFStr (pyGetV (.jobj kvs) "random"))
                   (pyFStr (pyGetV (.jobj kvs) "realm"))
                   st.username st.password) }]))
    ∧ (pyGetV m "error" = none → handle_message st m = (st, []))
    ∧ (∀ err, pyGetV m "error" = some err →
        pyEqStr (pyGetV err "message") "Component error: login challenge!" = false →
        handle_message st m = (st, [])) := by
  refine ⟨fun err herr hmsg hp => ?_, fun herr => ?_, fun err herr hmsg => ?_⟩
  · simp [handle_message, handle_login_error, login, send,
      hid, herr, hmsg, hp, hopen, pyEqInt]
  · simp [handle_message, hid, herr, pyEqInt]
  · simp [handle_message, handle_login_error, hid, herr, hmsg, pyEqInt]

theorem C1_login_challenge_witness :
    handle_message (initState "admin" "secret" "Dahua")
        (JValue.jobj [("id", .jint 1), ("session", .jint 7),
          ("error", .jobj [("message", .jstr "Component error: login challenge!")]),
          ("params", .jobj [("random", .jstr "123"), ("realm", .jstr "abc")])])
      = ({ initState "admin" "secret" "Dahua" with
             random := some (.jstr "123"), realm := some (.jstr "abc"),
             sessionId := some (.jint 7), request_id := 2 },
         [Effect.wire
           { id := 2, session := some (.jint 7),
             params := .login "admin"
               (get_hashed_password "123" "abc" "admin" "secret") }]) :=
  (C1_login_challenge (initState "admin" "secret" "Dahua")
      (JValue.jobj [("id", .jint 1), ("session", .jint 7),
        ("error", .jobj [("message", .jstr "Component error: login challenge!")]),
        ("params", .jobj [("random", .jstr "123"), ("realm", .jstr "abc")])])
      [("random", .jstr "123"), ("realm", .jstr "abc")] rfl rfl).1
    (JValue.jobj [("message", .jstr "Component error: login challenge!")])
    rfl rfl rfl

theorem parseLoop_no_brace (segs : List (List Char))
    (h : ∀ seg ∈ segs, seg.head? ≠ some '\x7b') :
    ∀ acc, parseLoop segs acc = acc := by
  induction segs with
  | nil => intro acc; rfl
  | cons p rest ih =>
    intro acc
    have hp := h p (List.mem_cons_self _ _)
    simp only [parseLoop, if_neg hp]
    exact ih (fun seg hs => h seg (List.mem_cons_of_mem _ hs)) acc

/-- C3 (counterexample): the claim describes splitting the RAW chunk
into NUL-delimited segments; the code instead splits the printable repr
`str(response)`, which prefixes `b` and a quote.  On the chunk holding
exactly the bytes of a JSON object with no NUL before it, the claim's
NUL-delimited reading (`specNulDecode`) extracts the object, but
`parse_response` returns nothing, because the repr's leading `b'` masks
the opening brace. -/
theorem C3_counterexample :
    parse_response (asciiBytes "\x7b\"id\":3\x7d") = none
      ∧ specNulDecode (asciiBytes "\x7b\"id\":3\x7d")
        = some (.jobj [("id", .jint 3)]) :=
  ⟨by rfl, by rfl⟩

/-- C3 (amended): the decoder splits the printable repr `str(chunk)` —
a leading `b` plus quote delimiter, escapes applied — on the literal
four-character sequence backslash-`x`-`0`-`0`; each repr segment
beginning with an opening brace is cut at its LAST closing brace and
parsed as one JSON object, and only the last successfully parsed object
is surfaced.  A chunk none of whose repr segments begins with a brace
yields no message and raises nothing; on the spec's example bytes the
decoder still extracts exactly the object with the `a}b` value (the
JSON segment is preceded by a NUL, so the repr prefix lands in an
earlier segment), and of two complete objects in one chunk only the
last is surfaced. -/
theorem C3_codec_decode (chunk : List Nat)
    (hnob : ∀ seg ∈ splitOnEsc (pyBytesReprChars chunk), seg.head? ≠ some '\x7b') :
    parse_response chunk = none
      ∧ parse_response (asciiBytes "\x00\x7b\"id\":1,\"foo\":\"a\x7db\"\x7d\x00garbage\x00")
          = some (.jobj [("id", .jint 1), ("foo", .jstr "a\x7db")])
      ∧ parse_response (asciiBytes "\x00\x7b\"a\":1\x7d\x00\x7b\"b\":2\x7d\x00")
          = some (.jobj [("b", .jint 2)]) := by
  refine ⟨?_, by rfl, by rfl⟩
  unfold parse_response
  exact parseLoop_no_brace _ hnob none

theorem C3_codec_decode_witness :
    parse_response (asciiBytes "hello") = none :=
  (C3_codec_decode (asciiBytes "hello") (by decide)).1

theorem parseLoop_append_abort (seg : List Char) (rest : List (List Char))
    (hbrace : seg.head? = some '\x7b')
    (hfail : rindexBrace seg = none ∨
      ∀ i, rindexBrace seg = some i → json_loadsL (seg.take (i + 1)) = none) :
    ∀ (pre : List (List Char)) (acc : Option JValue),
      parseLoop (pre ++ seg :: rest) acc = parseLoop pre acc := by
  intro pre
  induction pre with
  | nil =>
    intro acc
    cases hidx : rindexBrace seg with
    | none => simp [parseLoop, hbrace, hidx]
    | some i =>
      rcases hfail with hf | hf
      · rw [hidx] at hf; cases hf
      · have hl := hf i hidx
        simp [parseLoop, hbrace, hidx, hl]
  | cons p pre ih =>
    intro acc
    by_cases hph : p.head? = some '\x7b'
    · cases hri : rindexBrace p with
      | none => simp [parseLoop, hph, hri]
      | some i =>
        cases hjl : json_loadsL (p.take (i + 1)) with
        | none => simp [parseLoop, hph, hri, hjl]
        | some v =>
          simp only [List.cons_append, parseLoop, if_pos hph, hri, hjl]
          exact ih (some v)
    · simp only [List.cons_append, parseLoop, if_neg hph]
      exact ih acc

/-- C10 (counterexample): stated over NUL-delimited segments of the raw
chunk, the cutoff claim predicts that on a chunk whose first segment is
a complete object and whose second is an unparsable brace segment, the
decoder returns the earlier object (`specNulDecode` does); the code
actually returns nothing, because the repr prefix `b'` folds into the
FIRST segment and masks its brace, and the failing second segment then
aborts the scan with no prior success. -/
theorem C10_counterexample :
    parse_response (asciiBytes "\x7b\"a\":1\x7d\x00\x7bbad") = none
      ∧ specNulDecode (asciiBytes "\x7b\"a\":1\x7d\x00\x7bbad")
        = some (.jobj [("a", .jint 1)]) :=
  ⟨by rfl, by rfl⟩

/-- C10 (amended): the cutoff holds over the segments of the repr
split: whenever the repr segments are `pre ++ seg :: rest` with `seg`
beginning with a brace and failing (no closing brace for `rindex`, or
an unparsable cut), `parse_response` equals the scan of `pre` alone —
the segments of `rest` are never examined, whatever they contain, and
the value surfaced is the last success among `pre`, or nothing. -/
theorem C10_decoder_cutoff (chunk : List Nat) (pre rest : List (List Char))
    (seg : List Char)
    (hsplit : splitOnEsc (pyBytesReprChars chunk) = pre ++ seg :: rest)
    (hbrace : seg.head? = some '\x7b')
    (hfail : rindexBrace seg = none ∨
      ∀ i, rindexBrace seg = some i → json_loadsL (seg.take (i + 1)) = none) :
    parse_response chunk = parseLoop pre none := by
  unfold parse_response
  rw [hsplit]
  exact parseLoop_append_abort seg rest hbrace hfail pre none

theorem C10_decoder_cutoff_witness :
    parse_response (asciiBytes "\x00\x7boops\x00\x7b\"y\":8\x7d")
      = parseLoop [['b', Char.ofNat 39]] none :=
  C10_decoder_cutoff (asciiBytes "\x00\x7boops\x00\x7b\"y\":8\x7d")
    [['b', Char.ofNat 39]]
    [['\x7b', '"', 'y', '"', ':', '8', '\x7d', Char.ofNat 39]]
    ['\x7b', 'o', 'o', 'p', 's']
    (by rfl) (by rfl) (Or.inl (by rfl))

theorem jlookup_dictSet_self (kvs : List (String × JValue)) (k : String) (v : JValue) :
    jlookup k (dictSet kvs k v) = some v := by
  induction kvs with
  | nil => simp [dictSet, jlookup]
  | cons p rest ih =>
    obtain ⟨k1, v1⟩ := p
    by_cases h : k1 = k
    · simp [dictSet, jlookup, h]
    · simp [dictSet, jlookup, h, ih]

theorem jlookup_dictSet_ne (kvs : List (String × JValue)) (k k1 : String)
    (v : JValue) (h : k1 ≠ k) :
    jlookup k (dictSet kvs k1 v) = jlookup k kvs := by
  induction kvs with
  | nil => simp [dictSet, jlookup, h]
  | cons p rest ih =>
    obtain ⟨k2, v2⟩ := p
    by_cases h2 : k2 = k1
    · subst h2; simp [dictSet, jlookup, h]
    · by_cases h3 : k2 = k
      · simp [dictSet, jlookup, h2, h3, Ne.symm h]
      · simp [dictSet, jlookup, h2, h3, ih]

theorem enrich_absent (details : List (String × String)) (k : String)
    (h : ∀ p ∈ details, p.1 ≠ k) :
    ∀ kvs, jlookup k (enrichEvent details kvs) = jlookup k kvs := by
  induction details with
  | nil => intro kvs; rfl
  | cons d rest ih =>
    intro kvs
    have hd : d.1 ≠ k := h d (List.mem_cons_self _ _)
    show jlookup k (List.foldl _ (if DAHUA_ALLOWED_DETAILS.contains d.1
      then dictSet kvs d.1 (.jstr d.2) else kvs) rest) = _
    have ih2 := ih (fun p hp => h p (List.mem_cons_of_mem _ hp))
    by_cases hall : DAHUA_ALLOWED_DETAILS.contains d.1 = true
    · rw [if_pos hall]
      rw [show List.foldl _ _ rest = enrichEvent rest (dictSet kvs d.1 (.jstr d.2)) from rfl]
      rw [ih2 (dictSet kvs d.1 (.jstr d.2))]
      exact jlookup_dictSet_ne kvs k d.1 (.jstr d.2) hd
    · rw [if_neg hall]
      exact ih2 kvs

theorem enrich_not_allowed (details : List (String × String)) (k : String)
    (hk : DAHUA_ALLOWED_DETAILS.contains k = false) :
    ∀ kvs, jlookup k (enrichEvent details kvs) = jlookup k kvs := by
  induction details with
  | nil => intro kvs; rfl
  | cons d rest ih =>
    intro kvs
    show jlookup k (List.foldl _ (if DAHUA_ALLOWED_DETAILS.contains d.1
      then dictSet kvs d.1 (.jstr d.2) else kvs) rest) = _
    by_cases hall : DAHUA_ALLOWED_DETAILS.contains d.1 = true
    · have hd : d.1 ≠ k := by
        intro he; rw [he] at hall; rw [hall] at hk; cases hk
      rw [if_pos hall]
      rw [show List.foldl _ _ rest = enrichEvent rest (dictSet kvs d.1 (.jstr d.2)) from rfl]
      rw [ih (dictSet kvs d.1 (.jstr d.2))]
      exact jlookup_dictSet_ne kvs k d.1 (.jstr d.2) hd
    · rw [if_neg hall]
      exact ih kvs

theorem enrich_mem (details : List (String × String))
    (hnd : (details.map Prod.fst).Nodup) (k : String) (v : String)
    (hmem : (k, v) ∈ details)
    (hall : DAHUA_ALLOWED_DETAILS.contains k = true) :
    ∀ kvs, jlookup k (enrichEvent details kvs) = some (.jstr v) := by
  induction details with
  | nil => cases hmem
  | cons d rest ih =>
    intro kvs
    rw [List.map_cons, List.nodup_cons] at hnd
    obtain ⟨hnotin, hnd'⟩ := hnd
    show jlookup k (List.foldl _ (if DAHUA_ALLOWED_DETAILS.contains d.1
      then dictSet kvs d.1 (.jstr d.2) else kvs) rest) = _
    rcases List.mem_cons.mp hmem with heq | hmem'
    · have hd1 : d.1 = k := by rw [← heq]
      have hd2 : d.2 = v := by rw [← heq]
      subst hd1; subst hd2
      rw [if_pos (by rw [hall])]
      rw [show List.foldl _ _ rest = enrichEvent rest (dictSet kvs d.1 (.jstr d.2)) from rfl]
      have habs : ∀ p ∈ rest, p.1 ≠ d.1 := by
        intro p hp he
        exact hnotin (he ▸ List.mem_map_of_mem Prod.fst hp)
      rw [enrich_absent rest d.1 habs (dictSet kvs d.1 (.jstr d.2))]
      exact jlookup_dictSet_self kvs d.1 (.jstr d.2)
    · by_cases hall2 : DAHUA_ALLOWED_DETAILS.contains d.1 = true
      · rw [if_pos hall2]
        exact ih hnd' hmem' (dictSet kvs d.1 (.jstr d.2))
      · rw [if_neg hall2]
        exact ih hnd' hmem' kvs

theorem notifyLoop_map (st : ClientState) (kvss : List (List (String × JValue))) :
    notifyLoop st (kvss.map JValue.jobj)
      = kvss.map (fun kvs =>
          Effect.publish
            (st.mqtt_topic_head ++ "/" ++ pyFStr (pyGetV (.jobj kvs) "Code") ++ "/Event")
            (json_dumps_indent4 (.jobj (enrichEvent st.dahua_details kvs)))) := by
  induction kvss with
  | nil => rfl
  | cons kvs rest ih => simp [notifyLoop, ih]

/-- C5 (counterexample): with DeviceDetails `serialNumber = "Y"` and an
event that already carries `serialNumber = "E"`, the dispatcher
publishes the event with `serialNumber` OVERWRITTEN to `"Y"` — the
merge does not preserve fields already present on the event, contrary
to the claim's "without overwriting". -/
theorem C5_counterexample :
    handle_notify_event_stream
        { initState "admin" "pw" "Dahua" with dahua_details := [("serialNumber", "Y")] }
        (some (.jobj [("eventList",
          .jarr [.jobj [("Code", .jstr "AlarmLocal"), ("serialNumber", .jstr "E")]])]))
      = [Effect.publish "Dahua/AlarmLocal/Event"
          (json_dumps_indent4
            (.jobj [("Code", .jstr "AlarmLocal"), ("serialNumber", .jstr "Y")]))]
      ∧ json_dumps_indent4 (.jobj [("Code", .jstr "AlarmLocal"), ("serialNumber", .jstr "Y")])
        ≠ json_dumps_indent4 (.jobj [("Code", .jstr "AlarmLocal"), ("serialNumber", .jstr "E")]) :=
  ⟨by rfl, by decide⟩

/-- C5 (amended): for every event object in the notification's
`eventList`, the dispatcher merges in exactly the allow-listed
DeviceDetails fields `deviceType` and `serialNumber` when present in
DeviceDetails, with the DeviceDetails value OVERWRITING any value the
event already carried for that key (keys outside the allow list are
untouched), and publishes the JSON-serialized, pretty-printed
(`indent=4`) event to `{topicPrefix}/{event.Code}/Event`. -/
theorem C5_event_dispatcher (st : ClientState) (p : JValue)
    (kvss : List (List (String × JValue)))
    (hev : pyGetV p "eventList" = some (.jarr (kvss.map JValue.jobj))) :
    handle_notify_event_stream st (some p)
      = kvss.map (fun kvs =>
          Effect.publish
            (st.mqtt_topic_head ++ "/" ++ pyFStr (pyGetV (.jobj kvs) "Code") ++ "/Event")
            (json_dumps_indent4 (.jobj (enrichEvent st.dahua_details kvs))))
      ∧ ((st.dahua_details.map Prod.fst).Nodup →
          ∀ (kvs : List (String × JValue)) (k v : String),
            ((k, v) ∈ st.dahua_details → DAHUA_ALLOWED_DETAILS.contains k = true →
              jlookup k (enrichEvent st.dahua_details kvs) = some (.jstr v))
            ∧ (DAHUA_ALLOWED_DETAILS.contains k = false →
              jlookup k (enrichEvent st.dahua_details kvs) = jlookup k kvs)) := by
  constructor
  · simp [handle_notify_event_stream, hev, notifyLoop_map]
  · intro hnd kvs k v
    exact ⟨fun hmem hall => enrich_mem st.dahua_details hnd k v hmem hall kvs,
           fun hk => enrich_not_allowed st.dahua_details k hk kvs⟩

theorem C5_event_dispatcher_witness :
    handle_notify_event_stream
        { initState "admin" "pw" "Dahua" with dahua_details := [("deviceType", "X")] }
        (some (.jobj [("eventList", .jarr [.jobj [("Code", .jstr "AlarmLocal")]])]))
      = [Effect.publish "Dahua/AlarmLocal/Event"
          (json_dumps_indent4
            (.jobj [("Code", .jstr "AlarmLocal"), ("deviceType", .jstr "X")]))] :=
  (C5_event_dispatcher
      { initState "admin" "pw" "Dahua" with dahua_details := [("deviceType", "X")] }
      (.jobj [("eventList", .jarr [.jobj [("Code", .jstr "AlarmLocal")]])])
      [[("Code", .jstr "AlarmLocal")]] rfl).1
